import Mathlib

/-!
Shallow embedding of the query front end of the tlin structural pattern
engine (package `fixer_v2/query`, file `type.go`): token and node data
model, structural equality, and a matcher modelled from the design
specification where the matching code is not part of the given sources.
-/

namespace Query

/-- TokenType defines different types of tokens that can be produced by the lexer. -/
inductive TokenType where
  | tokenText
  | tokenHole
  | tokenLBrace
  | tokenRBrace
  | tokenWhitespace
  | tokenEOF
deriving DecidableEq, Repr

/-- Modelled from the spec: the set of capture kinds for holes. The source
file `type.go` uses the constants `HoleAny` (the unconstrained any-span
default) of type `HoleType`, whose defining declaration is not among the
given sources; the specification reserves room for refined kinds such as
single-identifier and balanced-expression. -/
inductive HoleType where
  | holeAny
  | holeIdentifier
  | holeExpression
deriving DecidableEq, Repr

/-- Modelled from the spec: the set of quantifiers for holes. The source
file `type.go` uses the constant `QuantNone` of type `Quantifier`, whose
defining declaration is not among the given sources; per the specification
the quantifiers are exactly-one (the default, written as a single-bracket
hole, `QuantNone`) and block (written as a double-bracket hole). -/
inductive Quantifier where
  | quantNone
  | quantBlock
deriving DecidableEq, Repr

/-- HoleConfig stores configuration for a hole pattern. -/
structure HoleConfig where
  type : HoleType
  quantifier : Quantifier
  name : String
deriving DecidableEq, Repr

/-- HoleConfig.Equal from `type.go`: name, type and quantifier must all agree. -/
def HoleConfig.equal (h other : HoleConfig) : Bool :=
  h.name == other.name &&
  h.type == other.type &&
  h.quantifier == other.quantifier

/-- Token represents a single lexical token with type, value, and position.
The Go `HoleConfig *HoleConfig` pointer (nil for non-hole tokens) is an
`Option HoleConfig`. -/
structure Token where
  type : TokenType
  value : String
  position : Int
  holeConfig : Option HoleConfig
deriving DecidableEq, Repr

/-- Token.Equal from `type.go`: fields Type, Value, Position must agree, and
the HoleConfig pointers must be both nil, or both non-nil with Equal
configurations. -/
def Token.equal (t : Token) (other : Token) : Bool :=
  if t.type != other.type || t.value != other.value || t.position != other.position then
    false
  else
    match t.holeConfig, other.holeConfig with
    | none, none => true
    | none, some _ => false
    | some _, none => false
    | some a, some b => a.equal b

/-- NodeType defines different node types for AST construction. -/
inductive NodeType where
  | nodePattern
  | nodeHole
  | nodeText
  | nodeBlock
deriving DecidableEq, Repr

/-- Node: the closed world of the four variants implementing the Go `Node`
interface in `type.go` (`PatternNode`, `HoleNode`, `TextNode`,
`BlockNode`), each carrying its unexported `pos` field. -/
inductive Node where
  | pattern (children : List Node) (pos : Int)
  | hole (config : HoleConfig) (pos : Int)
  | text (content : String) (pos : Int)
  | block (content : List Node) (pos : Int)

/-- The `Type()` method of each variant: PatternNode reports NodePattern,
HoleNode NodeHole, TextNode NodeText, BlockNode NodeBlock. -/
def Node.type : Node → NodeType
  | .pattern _ _ => .nodePattern
  | .hole _ _ => .nodeHole
  | .text _ _ => .nodeText
  | .block _ _ => .nodeBlock

/-- The `Position()` method of each variant: returns the `pos` field. -/
def Node.position : Node → Int
  | .pattern _ p => p
  | .hole _ p => p
  | .text _ p => p
  | .block _ p => p

/-- The `Name()` method, defined in `type.go` only on `*HoleNode` where it
returns `h.Config.Name`; on the other variants the method does not exist,
rendered as `none`. -/
def Node.holeName : Node → Option String
  | .hole c _ => some c.name
  | _ => none

/-- The type assertion `other.(*TextNode)` of `TextNode.Equal`: succeeds
exactly on the `text` variant, yielding its Content. -/
def Node.asTextContent : Node → Option String
  | .text c _ => some c
  | _ => none

/-- TextNode.Equal from `type.go`, with its guarded type assertion made
explicit: if `other.Type() != NodeText` return false; otherwise assert
`other.(*TextNode)` (`none` models the assertion panicking) and compare
Content. -/
def Node.textEqualChecked (content : String) (other : Node) : Option Bool :=
  if other.type != NodeType.nodeText then
    some false
  else
    match other.asTextContent with
    | some c2 => some (content == c2)
    | none => none

/-- The `Equal(other Node)` method of each variant, from `type.go`:
PatternNode.Equal and BlockNode.Equal only test that `other` is of the same
variant; HoleNode.Equal compares the three Config fields and `pos`;
TextNode.Equal is the guarded-assertion comparison of Content. -/
def Node.equal : Node → Node → Bool
  | .pattern _ _, other =>
    match other with
    | .pattern _ _ => true
    | _ => false
  | .hole c _p, other =>
    match other with
    | .hole c2 p2 =>
      c.name == c2.name &&
      c.type == c2.type &&
      c.quantifier == c2.quantifier &&
      _p == p2
    | _ => false
  | .text content _, other => (Node.textEqualChecked content other).getD false
  | .block _ _, other =>
    match other with
    | .block _ _ => true
    | _ => false

/-- nodesEqual from `type.go`: slices are equal when lengths agree and the
elements are pairwise Equal. -/
def nodesEqual (a b : List Node) : Bool :=
  a.length == b.length && (List.zip a b).all fun p => p.1.equal p.2

/-- NewHoleNode from `type.go`: builds a HoleNode with Name = name,
Type = HoleAny, Quantifier = QuantNone at the given position. -/
def NewHoleNode (name : String) (pos : Int) : Node :=
  .hole { name := name, type := .holeAny, quantifier := .quantNone } pos

/-- Modelled from the spec: the display form of a capture kind, used by
`HoleNode.String` via the `%s` verb; the `String()` method of `HoleType` is
not among the given sources. -/
def HoleType.str : HoleType → String
  | .holeAny => "any"
  | .holeIdentifier => "identifier"
  | .holeExpression => "expression"

/-- Modelled from the spec: the display form of a quantifier, used by
`HoleNode.String` via the `%s` verb; the `String()` method of `Quantifier`
is not among the given sources. -/
def Quantifier.str : Quantifier → String
  | .quantNone => ""
  | .quantBlock => "*"

/-- Modelled from the spec: one character escaped as by the Go standard
library `strconv.Quote` (an external library used by `TextNode.String`):
the standard short escapes, printable characters verbatim, and hexadecimal
escapes otherwise. -/
def quoteChar (c : Char) : String :=
  if c = '"' then "\\\""
  else if c = '\\' then "\\\\"
  else if c = '\x07' then "\\a"
  else if c = '\x08' then "\\b"
  else if c = '\x0c' then "\\f"
  else if c = '\n' then "\\n"
  else if c = '\r' then "\\r"
  else if c = '\t' then "\\t"
  else if c = '\x0b' then "\\v"
  else if 0x20 ≤ c.toNat && c.toNat < 0x7f then String.singleton c
  else if c.toNat < 0x100 then "\\x" ++ (Nat.toDigits 16 c.toNat).asString
  else if c.toNat < 0x10000 then "\\u" ++ (Nat.toDigits 16 c.toNat).asString
  else "\\U" ++ (Nat.toDigits 16 c.toNat).asString

/-- Modelled from the spec: the Go standard library `strconv.Quote`, a
double-quoted string with every character escaped by `quoteChar`. -/
def strconvQuote (s : String) : String :=
  "\"" ++ String.join (s.toList.map quoteChar) ++ "\""

mutual

/-- The `String()` method of each variant, from `type.go`: PatternNode and
BlockNode list their indented children and trim trailing newlines; HoleNode
prints its name (and, when not the default any/exactly-one configuration,
its type and quantifier); TextNode prints its Content quoted with the
surrounding double quotes stripped. -/
def Node.string : Node → String
  | .pattern children _ =>
    ("PatternNode(" ++ toString children.length ++ " children):\n"
      ++ childrenString children 0).dropRightWhile (· == '\n')
  | .hole c _ =>
    if c.type == .holeAny && c.quantifier == .quantNone then
      "HoleNode(" ++ c.name ++ ")"
    else
      "HoleNode(" ++ c.name ++ ":" ++ c.type.str ++ ")" ++ c.quantifier.str
  | .text content _ =>
    let escaped := strconvQuote content
    "TextNode(" ++ ((escaped.drop 1).dropRight 1) ++ ")"
  | .block content _ =>
    ("BlockNode(" ++ toString content.length ++ " children):\n"
      ++ childrenString content 0).dropRightWhile (· == '\n')

/-- The child-formatting loop shared by `PatternNode.String` and
`BlockNode.String`: each child on its own line, prefixed by its index, with
the child's newlines indented by two further spaces. -/
def childrenString : List Node → Nat → String
  | [], _ => ""
  | child :: rest, i =>
    let childStr := (Node.string child).replace "\n" "\n  "
    "  " ++ toString i ++ ": " ++ childStr ++ "\n" ++ childrenString rest (i + 1)

end

/-- State-passing rendering of `Token.Equal`: the method body reads fields
of the receiver and the argument and performs no assignment, so the state
it returns is the pair it was given. -/
def Token.equalOp (s : Token × Token) : Bool × (Token × Token) :=
  (Token.equal s.1 s.2, s)

/-- State-passing rendering of `Equal` on nodes: no method body assigns to
a field, so the returned state is the given pair. -/
def Node.equalOp (s : Node × Node) : Bool × (Node × Node) :=
  (Node.equal s.1 s.2, s)

/-- State-passing rendering of `Type()`. -/
def Node.typeOp (s : Node) : NodeType × Node :=
  (s.type, s)

/-- State-passing rendering of `String()`. -/
def Node.stringOp (s : Node) : String × Node :=
  (s.string, s)

/-- State-passing rendering of `Position()`. -/
def Node.positionOp (s : Node) : Int × Node :=
  (s.position, s)

/-- State-passing rendering of `Name()` on a HoleNode. -/
def Node.holeNameOp (s : Node) : Option String × Node :=
  (s.holeName, s)

/-- Modelled from the spec: the concatenated text of a captured token run,
the literal span a hole binds to. -/
def tokensText (ts : List Token) : String :=
  String.join (ts.map (fun t => t.value))

/-- Modelled from the spec: a pure-whitespace string, the content of a
`TextNode` that matches against any run of whitespace in the target. -/
def isWhitespaceString (s : String) : Bool :=
  s.length > 0 && s.toList.all (fun c => c == ' ' || c == '\t' || c == '\n' || c == '\r')

/-- Modelled from the spec: consume the target tokens spanning a balanced
brace group after an opening brace; given the tokens that follow the
opening brace and the current nesting depth, return the consumed run
(including the matching closing brace) and the remainder, or `none` for a
malformed target with unbalanced braces. -/
def splitBalanced : List Token → Nat → Option (List Token × List Token)
  | [], _ => none
  | t :: rest, depth =>
    if t.type == .tokenRBrace then
      if depth == 1 then some ([t], rest)
      else (splitBalanced rest (depth - 1)).map (fun q => (t :: q.1, q.2))
    else if t.type == .tokenLBrace then
      (splitBalanced rest (depth + 1)).map (fun q => (t :: q.1, q.2))
    else
      (splitBalanced rest depth).map (fun q => (t :: q.1, q.2))

/-- Modelled from the spec: the minimal balanced token group at the front
of the target (a single token, or a brace-delimited group when the target
opens a nested structure) — the unit an exactly-one hole consumes. -/
def takeBalancedUnit : List Token → Option (List Token × List Token)
  | [] => none
  | t :: rest =>
    if t.type == .tokenLBrace then
      (splitBalanced rest 1).map (fun q => (t :: q.1, q.2))
    else
      some ([t], rest)

/-- Modelled from the spec: look up a hole name among the bindings
accumulated so far in this alignment attempt. -/
def bindingsLookup (bs : List (String × String)) (n : String) : Option String :=
  match bs.find? (fun p => p.1 == n) with
  | some p => some p.2
  | none => none

/-- Modelled from the spec: bind a hole name to a captured span; a repeated
hole name does not capture again but requires the span to be textually
identical to the span already bound, failing the alignment otherwise. -/
def bindHole (bs : List (String × String)) (n s : String) : Option (List (String × String)) :=
  match bindingsLookup bs n with
  | some v => if v == s then some bs else none
  | none => some (bs ++ [(n, s)])

/-- Modelled from the spec: consume the literal text of a non-whitespace
`TextNode` byte-for-byte from the front of the target token run, returning
the remainder; mismatch fails the alignment at this offset. -/
def consumeText : String → List Token → Option (List Token)
  | r, [] => if r == "" then some [] else none
  | r, t :: rest =>
    if r == "" then some (t :: rest)
    else if r.startsWith t.value && t.value.length > 0 then
      consumeText (r.drop t.value.length) rest
    else none

/-- Modelled from the spec: drop the maximal run of whitespace tokens. -/
def dropWhitespaceRun : List Token → List Token
  | [] => []
  | t :: rest => if t.type == .tokenWhitespace then dropWhitespaceRun rest else t :: rest

/-- Modelled from the spec: a pure-whitespace `TextNode` matches any run of
one-or-more whitespace characters in the target, so it consumes a leading
whitespace token run of length at least one. -/
def consumeWhitespaceRun : List Token → Option (List Token)
  | [] => none
  | t :: rest =>
    if t.type == .tokenWhitespace then some (dropWhitespaceRun rest) else none

mutual

/-- Modelled from the spec: align a child sequence against the target
tokens, threading the partial bindings; a `TextNode` consumes its literal
(whitespace-collapsed when pure whitespace), an exactly-one hole consumes
the minimal balanced unit, a block hole greedily tries the longest capture
first and shrinks one token at a time, a `BlockNode` matches a balanced
brace-delimited region whose interior its content must fully consume, and
a nested `PatternNode` never occurs (the root is never nested), so it
fails. Returns the bindings and the unconsumed remainder. -/
def alignSeq : List Node → List Token → List (String × String) →
    Option (List (String × String) × List Token)
  | [], ts, bs => some (bs, ts)
  | n :: rest, ts, bs =>
    match n with
    | .text content _ =>
      match (if isWhitespaceString content then consumeWhitespaceRun ts
             else consumeText content ts) with
      | some ts2 => alignSeq rest ts2 bs
      | none => none
    | .hole c _ =>
      match c.quantifier with
      | .quantNone =>
        match takeBalancedUnit ts with
        | some q =>
          match bindHole bs c.name (tokensText q.1) with
          | some bs2 => alignSeq rest q.2 bs2
          | none => none
        | none => none
      | .quantBlock => tryBlock c.name rest ts bs ts.length
    | .block content _ =>
      match ts with
      | [] => none
      | t :: ts1 =>
        if t.type == .tokenLBrace then
          match splitBalanced ts1 1 with
          | some q =>
            match alignSeq content q.1.dropLast bs with
            | some r => if r.2.isEmpty then alignSeq rest q.2 r.1 else none
            | none => none
          | none => none
        else none
    | .pattern _ _ => none
  termination_by cs _ts _bs => (sizeOf cs, 0)

/-- Modelled from the spec: one attempt of a block-quantifier hole — bind
a capture of exactly `k` tokens and align the rest of the pattern against
the remaining target. -/
def attemptBlock (nm : String) (rest : List Node) (ts : List Token)
    (bs : List (String × String)) (k : Nat) :
    Option (List (String × String) × List Token) :=
  match bindHole bs nm (tokensText (ts.take k)) with
  | some bs2 => alignSeq rest (ts.drop k) bs2
  | none => none
  termination_by (sizeOf rest, 1)

/-- Modelled from the spec: the bounded backtracking of a block-quantifier
hole — bind the longest capture of at most `k` tokens for which the rest
of the pattern matches the remaining target, shrinking one token at a
time, and fail when no shrink remains. -/
def tryBlock (nm : String) (rest : List Node) (ts : List Token)
    (bs : List (String × String)) : Nat →
    Option (List (String × String) × List Token)
  | 0 => attemptBlock nm rest ts bs 0
  | k' + 1 =>
    match attemptBlock nm rest ts bs (k' + 1) with
    | some r => some r
    | none => tryBlock nm rest ts bs k'
  termination_by k => (sizeOf rest, k + 2)

end

/-- Modelled from the spec: one match attempt and its result — the
bindings of the holes and the full span of target token indices consumed
by the alignment. -/
structure MatchResult where
  bindings : List (String × String)
  fullSpan : Nat × Nat
deriving DecidableEq, Repr

/-- Modelled from the spec: ordered leftmost-first scanning — attempt to
align the pattern children at every start offset in increasing order,
yield the first successful alignment at each offset, and resume after the
matched span (non-overlapping); a failed offset advances by one token. -/
def matchScan (children : List Node) : List Token → Nat → List MatchResult
  | ts, i =>
    match alignSeq children ts [] with
    | some r =>
      let consumed := ts.length - r.2.length
      if _h : consumed = 0 then
        match ts with
        | [] => [⟨r.1, (i, i)⟩]
        | _ :: rest => ⟨r.1, (i, i)⟩ :: matchScan children rest (i + 1)
      else
        ⟨r.1, (i, i + consumed)⟩ :: matchScan children (ts.drop consumed) (i + consumed)
    | none =>
      match ts with
      | [] => []
      | _ :: rest => matchScan children rest (i + 1)
  termination_by ts _ => ts.length
  decreasing_by
    all_goals simp_all [List.length_drop]
    omega

/-- Modelled from the spec: `match(pattern, target)` — the full ordered
result sequence of scanning the target with the children of the root
`PatternNode`; a non-root node is not a pattern and yields no results. -/
def matchPattern (p : Node) (target : List Token) : List MatchResult :=
  match p with
  | .pattern children _ => matchScan children target 0
  | _ => []

/-- The guarded assertion of `TextNode.Equal` computes the plain
content comparison: `some` of Content equality on a TextNode argument and
`some false` on every other variant. -/
lemma textEqualChecked_eq (content : String) (other : Node) :
    Node.textEqualChecked content other =
      some (match other with
            | .text c _ => content == c
            | _ => false) := by
  cases other <;> rfl

/-- C1: the claim that structural equality ignores position fails on
HoleNode: two HoleNodes with equal HoleConfig but different positions are
not Equal. -/
theorem c1_hole_position_counterexample :
    Node.equal (.hole ⟨.holeAny, .quantNone, "x"⟩ 0)
      (.hole ⟨.holeAny, .quantNone, "x"⟩ 1) = false := by decide

/-- C1 (amended): TextNode equality ignores position — two TextNodes with
identical Content are Equal at any positions — but HoleNode equality is
position-sensitive: with equal HoleConfig it holds exactly when the
positions agree. -/
theorem c1_position_sensitivity (c : HoleConfig) (p q : Int) (s : String) :
    Node.equal (.text s p) (.text s q) = true ∧
    Node.equal (.hole c p) (.hole c q) = (p == q) := by
  refine ⟨?_, ?_⟩
  · simp [Node.equal, textEqualChecked_eq]
  · simp [Node.equal]

/-- C2: the claim that Equal requires logical content to match fails on
PatternNode: a PatternNode with one child is Equal to a PatternNode with
none, although the Children sequences are not pairwise equal; likewise for
BlockNode Content. -/
theorem c2_children_ignored_counterexample :
    Node.equal (.pattern [.text "a" 0] 0) (.pattern [] 0) = true ∧
    nodesEqual [.text "a" 0] [] = false ∧
    Node.equal (.block [.text "a" 0] 0) (.block [] 0) = true := by decide

/-- C2 (amended): PatternNode.Equal and BlockNode.Equal test only that the
other node is of the same variant, ignoring Children and Content entirely;
HoleNode.Equal and TextNode.Equal do require the logical content to
match. -/
theorem c2_variant_only_equality (cs cs2 : List Node) (p p2 : Int)
    (c c2 : HoleConfig) (s s2 : String) :
    Node.equal (.pattern cs p) (.pattern cs2 p2) = true ∧
    Node.equal (.block cs p) (.block cs2 p2) = true ∧
    Node.equal (.text s p) (.text s2 p2) = (s == s2) ∧
    Node.equal (.hole c p) (.hole c2 p2) =
      (c.name == c2.name && c.type == c2.type &&
       c.quantifier == c2.quantifier && p == p2) := by
  refine ⟨rfl, rfl, ?_, ?_⟩
  · simp [Node.equal, textEqualChecked_eq]
  · simp [Node.equal, Bool.and_assoc]

/-- C3: HoleConfig.Equal returns true exactly when Name, Type and
Quantifier all agree. -/
theorem c3_holeConfig_equal_iff (a b : HoleConfig) :
    HoleConfig.equal a b = true ↔
      (a.name = b.name ∧ a.type = b.type ∧ a.quantifier = b.quantifier) := by
  simp [HoleConfig.equal, and_assoc]

/-- C4: the claim that the coalesced TextNode holding "a  b" is Equal to
the TextNode holding "a b" fails: TextNode.Equal compares Content
byte-for-byte and the two contents differ. -/
theorem c4_whitespace_counterexample :
    Node.equal (.text "a  b" 0) (.text "a b" 0) = false := by decide

/-- C4 (amended): TextNode.Equal compares Content byte-for-byte, ignoring
only position: the TextNode holding "a  b" (two spaces) is not Equal to
the TextNode holding "a b" (one space) at any positions, while any two
TextNodes with identical Content are Equal. -/
theorem c4_text_equal_bytewise (p q : Int) (s : String) :
    Node.equal (.text "a  b" p) (.text "a b" q) = false ∧
    Node.equal (.text s p) (.text s q) = true := by
  refine ⟨?_, ?_⟩
  · simp [Node.equal, textEqualChecked_eq]
  · simp [Node.equal, textEqualChecked_eq]

/-- C5: NewHoleNode(name, pos) builds a HoleNode whose config carries the
given name, the unconstrained any-span capture kind `HoleAny`, and the
default exactly-one quantifier `QuantNone` (a single-bracket hole), at the
given position. -/
theorem c5_newHoleNode_defaults (name : String) (pos : Int) :
    NewHoleNode name pos =
      Node.hole { type := HoleType.holeAny, quantifier := Quantifier.quantNone,
                  name := name } pos := rfl

/-- C6: the core operations Equal, String, Position, Type and Name are
read-only — rendered with explicit state passing, each operation returns
its receiver and argument unchanged. -/
theorem c6_core_operations_immutable (t u : Token) (n m : Node) :
    (Token.equalOp (t, u)).2 = (t, u) ∧
    (Node.equalOp (n, m)).2 = (n, m) ∧
    (Node.typeOp n).2 = n ∧
    (Node.stringOp n).2 = n ∧
    (Node.positionOp n).2 = n ∧
    (Node.holeNameOp n).2 = n :=
  ⟨rfl, rfl, rfl, rfl, rfl, rfl⟩

/-- C7: matching is deterministic and idempotent — the matcher is a pure
function of the pattern and the target token stream, so two runs on the
same pattern and target yield the same ordered result sequence. -/
theorem c7_match_deterministic (p : Node) (target : List Token) :
    matchPattern p target = matchPattern p target := rfl

/-- Token.Equal in conjunction normal form: the three plain fields agree
and the optional HoleConfigs are both absent or both present and Equal. -/
lemma token_equal_eq (t u : Token) :
    Token.equal t u =
      (t.type == u.type && t.value == u.value && t.position == u.position &&
       (match t.holeConfig, u.holeConfig with
        | none, none => true
        | some a, some b => HoleConfig.equal a b
        | _, _ => false)) := by
  obtain ⟨ty, v, p, hc⟩ := t
  obtain ⟨ty2, v2, p2, hc2⟩ := u
  simp only [Token.equal]
  by_cases h1 : ty = ty2 <;> by_cases h2 : v = v2 <;> by_cases h3 : p = p2 <;>
    cases hc <;> cases hc2 <;> simp [h1, h2, h3]

/-- C8: Token.Equal returns true exactly when Type, Value and Position
agree and the HoleConfig pointers are both nil or both non-nil with
field-wise equal configurations; a token carrying a HoleConfig is never
Equal to a token whose HoleConfig is nil. -/
theorem c8_token_equal_iff :
    (∀ t u : Token, Token.equal t u = true ↔
      (t.type = u.type ∧ t.value = u.value ∧ t.position = u.position ∧
       ((t.holeConfig = none ∧ u.holeConfig = none) ∨
        (∃ a b, t.holeConfig = some a ∧ u.holeConfig = some b ∧
          a.name = b.name ∧ a.type = b.type ∧ a.quantifier = b.quantifier)))) ∧
    (∀ (ty ty2 : TokenType) (v v2 : String) (p p2 : Int) (a : HoleConfig),
      Token.equal ⟨ty, v, p, some a⟩ ⟨ty2, v2, p2, none⟩ = false) := by
  constructor
  · intro t u
    obtain ⟨ty, v, p, hc⟩ := t
    obtain ⟨ty2, v2, p2, hc2⟩ := u
    cases hc <;> cases hc2 <;>
      simp [token_equal_eq, HoleConfig.equal, and_assoc]
  · intro ty ty2 v v2 p p2 a
    simp [token_equal_eq]

/-- C9: Equal is an equivalence relation on the four node variants —
reflexive, symmetric and transitive. -/
theorem c9_node_equal_equivalence :
    (∀ n : Node, n.equal n = true) ∧
    (∀ a b : Node, (a.equal b = true) ↔ (b.equal a = true)) ∧
    (∀ a b c : Node, a.equal b = true → b.equal c = true →
      a.equal c = true) := by
  refine ⟨?_, ?_, ?_⟩
  · intro n
    cases n <;> simp [Node.equal, textEqualChecked_eq]
  · intro a b
    cases a <;> cases b <;> simp [Node.equal, textEqualChecked_eq] <;> aesop
  · intro a b c hab hbc
    cases a <;> cases b <;> cases c <;>
      simp_all [Node.equal, textEqualChecked_eq]

/-- C9 witness: transitivity applied to three concrete TextNodes with the
same Content at three different positions. -/
theorem c9_node_equal_equivalence_witness :
    Node.equal (.text "x" 0) (.text "x" 1) = true ∧
    Node.equal (.text "x" 1) (.text "x" 2) = true ∧
    Node.equal (.text "x" 0) (.text "x" 2) = true :=
  ⟨by decide, by decide,
   c9_node_equal_equivalence.2.2 (.text "x" 0) (.text "x" 1) (.text "x" 2)
     (by decide) (by decide)⟩

/-- C10: TextNode.Equal is total — its guarded type assertion never fails:
the checked comparison is always `some`, and among the defined variants
only a TextNode reports the NodeType NodeText. -/
theorem c10_textEqual_total (content : String) (other : Node) :
    (Node.textEqualChecked content other).isSome = true ∧
    (other.type = NodeType.nodeText ↔ ∃ c p, other = Node.text c p) := by
  refine ⟨?_, ?_⟩
  · cases other <;> simp [textEqualChecked_eq]
  · cases other <;> simp [Node.type]

end Query
